import Mathlib

/-!
Verification development for the `atc_simulator` package: a shallow
embedding of the aircraft kinematic model, the separation and conflict
detector, the ATC resolution policy and the safety evaluator, together
with theorems settling the specification claims.

Numeric conventions of the embedding:
- Python float arithmetic is modelled by exact rational arithmetic (`ℚ`).
- `math.sqrt` is irrational in general, so every quantity the source
  stores or compares as a square root of a sum of squares is carried in
  squared form here; each comparison `sqrt d ⋈ c` (with `c ≥ 0`) is
  modelled as `d ⋈ c^2`, which is equivalent since `sqrt` is strictly
  monotone on nonnegatives.  Bridging lemmas restate the key predicates
  through `Real.sqrt` to justify this.
- `math.sin`/`math.cos`/`math.atan2` composed with degree conversion are
  abstracted as a `Trig` parameter (exact real trigonometry is not
  computable); theorems either hold for every `Trig` or fix the finitely
  many trigonometric values they rely on.
-/

set_option allowUnsafeReducibility true

/- The Batteries rational arithmetic operations are marked irreducible,
which blocks elaborator-side evaluation in `decide`; re-mark them
semireducible locally so concrete states can be evaluated.  This only
affects elaboration hints, not kernel checking. -/
attribute [local semireducible] Rat.add Rat.sub Rat.mul Rat.div Rat.neg Rat.inv

namespace ATCSim

/-- Python float modulo `a % b` for a positive modulus `b`:
the representative of `a` modulo `b` lying in `[0, b)`. -/
def pymod (a b : ℚ) : ℚ := a - b * (⌊a / b⌋ : ℤ)

/-- Source pattern `max lo (min hi v)` used for altitude and speed limits. -/
def clampQ (lo hi v : ℚ) : ℚ := max lo (min hi v)

/-- 3D position in airspace (`Position` in aircraft.py):
x, y in nautical miles, altitude in feet. -/
structure Position where
  x : ℚ
  y : ℚ
  altitude : ℚ
deriving DecidableEq

/-- Squared horizontal distance between two positions.  The source's
`Position.distance_to` returns `math.sqrt` of this quantity. -/
def Position.dist2 (p q : Position) : ℚ :=
  (p.x - q.x) ^ 2 + (p.y - q.y) ^ 2

/-- `Position.vertical_separation`: absolute altitude difference in feet. -/
def Position.vertical_separation (p q : Position) : ℚ :=
  |p.altitude - q.altitude|

/-- Aircraft velocity vector (`Velocity` in aircraft.py). -/
structure Velocity where
  speed : ℚ
  heading : ℚ
deriving DecidableEq

/-- Navigation waypoint (`Waypoint` in aircraft.py). -/
structure Waypoint where
  name : String
  x : ℚ
  y : ℚ
  altitude : Option ℚ
deriving DecidableEq

/-- Aircraft operational status (`AircraftStatus` enum). -/
inductive AircraftStatus where
  | TAXIING
  | DEPARTING
  | ENROUTE
  | ARRIVING
  | LANDED
deriving DecidableEq

/-- Abstraction of the trigonometric primitives used by the source:
`sinDeg h` models `math.sin(math.radians(h))`, `cosDeg h` models
`math.cos(math.radians(h))`, and `atan2Deg dx dy` models
`math.degrees(math.atan2(dx, dy))`. -/
structure Trig where
  sinDeg : ℚ → ℚ
  cosDeg : ℚ → ℚ
  atan2Deg : ℚ → ℚ → ℚ

/-- A trivial instantiation of the trigonometric primitives, used for
concrete scenarios whose conclusions do not depend on them. -/
def trigZero : Trig where
  sinDeg := fun _ => 0
  cosDeg := fun _ => 0
  atan2Deg := fun _ _ => 0

/-- Mutable aircraft state (`Aircraft` in aircraft.py). -/
structure Aircraft where
  callsign : String
  position : Position
  velocity : Velocity
  flightPlan : List Waypoint
  aircraftType : String
  status : AircraftStatus
  target_altitude : Option ℚ
  target_heading : Option ℚ
  target_speed : Option ℚ
  current_waypoint_index : ℕ
  time_in_simulation : ℚ
deriving DecidableEq

namespace Aircraft

/-- `Aircraft.MAX_CLIMB_RATE` (feet per minute). -/
def MAX_CLIMB_RATE : ℚ := 2000

/-- `Aircraft.MAX_DESCENT_RATE` (feet per minute). -/
def MAX_DESCENT_RATE : ℚ := 2000

/-- `Aircraft.MAX_TURN_RATE` (degrees per second). -/
def MAX_TURN_RATE : ℚ := 3

/-- `Aircraft.MAX_SPEED_CHANGE` (knots per second). -/
def MAX_SPEED_CHANGE : ℚ := 10

/-- `Aircraft.MIN_ALTITUDE` (feet). -/
def MIN_ALTITUDE : ℚ := 1000

/-- `Aircraft.MAX_ALTITUDE` (feet). -/
def MAX_ALTITUDE : ℚ := 45000

/-- `Aircraft.MIN_SPEED` (knots). -/
def MIN_SPEED : ℚ := 120

/-- `Aircraft.MAX_SPEED` (knots). -/
def MAX_SPEED : ℚ := 550

/-- `Aircraft._shortest_heading_difference`: the two `while` loops bring
`target - current` into `[-180, 180]` by subtracting or adding whole
multiples of 360; the closed form below computes the loops' result. -/
def shortest_heading_difference (current target : ℚ) : ℚ :=
  let diff := target - current
  if diff > 180 then diff - 360 * (⌈(diff - 180) / 360⌉ : ℤ)
  else if diff < -180 then diff + 360 * (⌈(-180 - diff) / 360⌉ : ℤ)
  else diff

/-- `Aircraft._calculate_heading_to_waypoint`:
`degrees(atan2(dx, dy)) % 360`. -/
def calculate_heading_to_waypoint (trig : Trig) (s : Aircraft) (wp : Waypoint) : ℚ :=
  pymod (trig.atan2Deg (wp.x - s.position.x) (wp.y - s.position.y)) 360

/-- `Aircraft._update_altitude`.  The final clamp of the source
(line `max(MIN_ALTITUDE, min(MAX_ALTITUDE, altitude))`) applies to the two
non-early-return branches; the within-10-feet snap returns before it. -/
def update_altitude (dt : ℚ) (s : Aircraft) : Aircraft :=
  match s.target_altitude with
  | none =>
    if h : s.current_waypoint_index < s.flightPlan.length then
      match (s.flightPlan[s.current_waypoint_index]).altitude with
      | some a => { s with target_altitude := some a }
      | none => s
    else s
  | some tgt =>
    let diff := tgt - s.position.altitude
    if |diff| < 10 then
      { s with position := { s.position with altitude := tgt }, target_altitude := none }
    else
      let maxChange := (if diff > 0 then MAX_CLIMB_RATE else MAX_DESCENT_RATE) * (dt / 60)
      if |diff| ≤ maxChange then
        { s with
            position :=
              { s.position with altitude := clampQ MIN_ALTITUDE MAX_ALTITUDE tgt },
            target_altitude := none }
      else
        { s with
            position :=
              { s.position with
                  altitude :=
                    clampQ MIN_ALTITUDE MAX_ALTITUDE
                      (s.position.altitude + (if diff > 0 then maxChange else -maxChange)) } }

/-- `Aircraft._update_heading`.  `normalize_heading` runs in the two
non-early-return branches; the within-half-degree snap returns before it. -/
def update_heading (trig : Trig) (dt : ℚ) (s : Aircraft) : Aircraft :=
  match s.target_heading with
  | none =>
    if h : s.current_waypoint_index < s.flightPlan.length then
      { s with
          target_heading :=
            some (calculate_heading_to_waypoint trig s (s.flightPlan[s.current_waypoint_index])) }
    else s
  | some tgt =>
    let diff := shortest_heading_difference s.velocity.heading tgt
    if |diff| < 1 / 2 then
      { s with velocity := { s.velocity with heading := tgt }, target_heading := none }
    else
      let maxTurn := MAX_TURN_RATE * dt
      if |diff| ≤ maxTurn then
        { s with velocity := { s.velocity with heading := pymod tgt 360 }, target_heading := none }
      else
        { s with
            velocity :=
              { s.velocity with
                  heading :=
                    pymod (s.velocity.heading + (if diff > 0 then maxTurn else -maxTurn)) 360 } }

/-- `Aircraft._update_speed`. -/
def update_speed (dt : ℚ) (s : Aircraft) : Aircraft :=
  match s.target_speed with
  | none => s
  | some tgt =>
    let diff := tgt - s.velocity.speed
    if |diff| < 1 then
      { s with velocity := { s.velocity with speed := tgt }, target_speed := none }
    else
      let maxChange := MAX_SPEED_CHANGE * dt
      if |diff| ≤ maxChange then
        { s with
            velocity := { s.velocity with speed := clampQ MIN_SPEED MAX_SPEED tgt },
            target_speed := none }
      else
        { s with
            velocity :=
              { s.velocity with
                  speed :=
                    clampQ MIN_SPEED MAX_SPEED
                      (s.velocity.speed + (if diff > 0 then maxChange else -maxChange)) } }

/-- `Aircraft._update_position`: dead-reckoning integration of the current
velocity over `dt` seconds. -/
def update_position (trig : Trig) (dt : ℚ) (s : Aircraft) : Aircraft :=
  let distance := s.velocity.speed * (dt / 3600)
  { s with
      position :=
        { s.position with
            x := s.position.x + distance * trig.sinDeg s.velocity.heading,
            y := s.position.y + distance * trig.cosDeg s.velocity.heading } }

/-- `Aircraft._check_waypoint_progress`: advance the cursor when the
horizontal distance to the current waypoint is below 1 NM (the source
compares `sqrt d < 1.0`, modelled as `d < 1`). -/
def check_waypoint_progress (s : Aircraft) : Aircraft :=
  if h : s.current_waypoint_index < s.flightPlan.length then
    let wp := s.flightPlan[s.current_waypoint_index]
    if (s.position.x - wp.x) ^ 2 + (s.position.y - wp.y) ^ 2 < 1 then
      { s with current_waypoint_index := s.current_waypoint_index + 1 }
    else s
  else s

/-- `Aircraft.update`: one kinematic tick of `dt` seconds. -/
def update (trig : Trig) (dt : ℚ) (s : Aircraft) : Aircraft :=
  check_waypoint_progress
    (update_position trig dt
      (update_speed dt
        (update_heading trig dt
          (update_altitude dt
            { s with time_in_simulation := s.time_in_simulation + dt }))))

/-- `Aircraft.set_altitude`: ATC altitude instruction (clamped). -/
def set_altitude (a : ℚ) (s : Aircraft) : Aircraft :=
  { s with target_altitude := some (clampQ MIN_ALTITUDE MAX_ALTITUDE a) }

/-- `Aircraft.set_heading`: ATC heading instruction (normalized). -/
def set_heading (h : ℚ) (s : Aircraft) : Aircraft :=
  { s with target_heading := some (pymod h 360) }

/-- `Aircraft.set_speed`: ATC speed instruction (clamped). -/
def set_speed (v : ℚ) (s : Aircraft) : Aircraft :=
  { s with target_speed := some (clampQ MIN_SPEED MAX_SPEED v) }

/-- `Aircraft.predict_position`: extrapolate the position `t` seconds
ahead at constant speed and heading, altitude held fixed. -/
def predict_position (trig : Trig) (s : Aircraft) (t : ℚ) : Position :=
  let distance := s.velocity.speed * (t / 3600)
  { x := s.position.x + distance * trig.sinDeg s.velocity.heading,
    y := s.position.y + distance * trig.cosDeg s.velocity.heading,
    altitude := s.position.altitude }

end Aircraft

/-- Minimum separation standards (`SeparationRequirements` in airspace.py). -/
structure SeparationRequirements where
  horizontal_nm : ℚ
  vertical_ft : ℚ
deriving DecidableEq

/-- `SeparationRequirements.standard`: altitude-band standard minima. -/
def SeparationRequirements.standard (altitude : ℚ) : SeparationRequirements :=
  if altitude < 29000 then { horizontal_nm := 5, vertical_ft := 1000 }
  else { horizontal_nm := 5, vertical_ft := 2000 }

/-- `SeparationRequirements.terminal`: reduced terminal-area minima. -/
def SeparationRequirements.terminal : SeparationRequirements :=
  { horizontal_nm := 3, vertical_ft := 1000 }

/-- Detected conflict between aircraft (`Conflict` in airspace.py).
`hSep2_at_cpa` carries the square of the source's
`horizontal_separation_at_cpa` (which is a `sqrt`). -/
structure Conflict where
  aircraft1 : String
  aircraft2 : String
  time_to_cpa : ℕ
  hSep2_at_cpa : ℚ
  vertical_separation_at_cpa : ℚ
  severity : String
deriving DecidableEq

/-- The separation requirement both the detector and the evaluator derive
for a pair: `SeparationRequirements.standard` of the average altitude. -/
def reqFor (a b : Aircraft) : SeparationRequirements :=
  SeparationRequirements.standard ((a.position.altitude + b.position.altitude) / 2)

/-- `Airspace.check_separation`: the first component is the squared
horizontal separation (the source returns its square root), the second is
the vertical separation in feet. -/
def check_separation (a b : Aircraft) : ℚ × ℚ :=
  (Position.dist2 a.position b.position,
   Position.vertical_separation a.position b.position)

/-- `Airspace.is_separated`: separation is satisfied when either axis alone
meets its minimum.  The source compares `sqrt h2 ≥ horizontal_nm`; since
`horizontal_nm ≥ 0` this is `h2 ≥ horizontal_nm ^ 2`. -/
def is_separated (a b : Aircraft) : Bool :=
  let sep := check_separation a b
  let req := reqFor a b
  decide (sep.1 ≥ req.horizontal_nm ^ 2) || decide (sep.2 ≥ req.vertical_ft)

/-- `Airspace._calculate_severity`; `h2` is the squared horizontal
separation, so the source's `h_sep < horizontal_nm * 0.5` becomes
`h2 < (horizontal_nm * (1/2)) ^ 2` (both sides nonnegative).  The source
also receives the vertical separation but never uses it. -/
def calculate_severity (h2 : ℚ) (vSep : ℚ) (time_to_cpa : ℕ) (req : SeparationRequirements) :
    String :=
  if time_to_cpa < 60 ∨ h2 < (req.horizontal_nm * (1 / 2)) ^ 2 then "high"
  else if time_to_cpa < 180 ∨ h2 < (req.horizontal_nm * (3 / 4)) ^ 2 then "medium"
  else "low"

/-- Squared horizontal separation of the two predicted positions `t`
seconds ahead. -/
def hSep2At (trig : Trig) (a b : Aircraft) (t : ℕ) : ℚ :=
  Position.dist2 (Aircraft.predict_position trig a t) (Aircraft.predict_position trig b t)

/-- Vertical separation of the two predicted positions `t` seconds ahead
(prediction holds altitude fixed). -/
def vSepAt (trig : Trig) (a b : Aircraft) (t : ℕ) : ℚ :=
  |(Aircraft.predict_position trig a t).altitude - (Aircraft.predict_position trig b t).altitude|

/-- One iteration of the closest-approach sampling loop in
`Airspace._check_pair_for_conflict`.  The state is `none` before the first
sample (the source initializes the minimum to `inf`, which the first
finite sample always replaces); afterwards it is
`some (min squared horizontal sep, co-sampled vertical sep, sample time)`. -/
def cpaStep (trig : Trig) (a b : Aircraft) (st : Option (ℚ × ℚ × ℕ)) (t : ℕ) :
    Option (ℚ × ℚ × ℕ) :=
  let h2 := hSep2At trig a b t
  let v := vSepAt trig a b t
  match st with
  | none => some (h2, v, t)
  | some (mh, mv, tm) => if h2 < mh then some (h2, v, t) else some (mh, mv, tm)

/-- The full sampling loop of `Airspace._check_pair_for_conflict` over
integer second offsets `t = 0 .. n-1`. -/
def cpaScan (trig : Trig) (a b : Aircraft) (n : ℕ) : Option (ℚ × ℚ × ℕ) :=
  (List.range n).foldl (cpaStep trig a b) none

/-- `Airspace._check_pair_for_conflict`: emit a conflict when both the
minimum sampled horizontal separation and the co-sampled vertical
separation are below the pair's required minima. -/
def check_pair_for_conflict (trig : Trig) (a b : Aircraft) (lookahead : ℕ) : Option Conflict :=
  match cpaScan trig a b lookahead with
  | none => none
  | some (mh2, mv, tm) =>
    let req := reqFor a b
    if mh2 < req.horizontal_nm ^ 2 ∧ mv < req.vertical_ft then
      some
        { aircraft1 := a.callsign, aircraft2 := b.callsign, time_to_cpa := tm,
          hSep2_at_cpa := mh2, vertical_separation_at_cpa := mv,
          severity := calculate_severity mh2 mv tm req }
    else none

/-- All ordered index pairs `i < j` of a list, in the iteration order of
the source's double loop. -/
def allPairs : List α → List (α × α)
  | [] => []
  | x :: xs => xs.map (fun y => (x, y)) ++ allPairs xs

/-- `Airspace.detect_conflicts`: scan every unordered pair. -/
def detect_conflicts (trig : Trig) (aircraft_list : List Aircraft) (lookahead : ℕ) :
    List Conflict :=
  (allPairs aircraft_list).filterMap fun p => check_pair_for_conflict trig p.1 p.2 lookahead

/-- Types of ATC instructions (`InstructionType` enum in atc_system.py). -/
inductive InstructionType where
  | ALTITUDE_CHANGE
  | HEADING_CHANGE
  | SPEED_CHANGE
  | HOLD
  | DIRECT_TO
  | CLEARED_APPROACH
deriving DecidableEq

/-- Instruction priority levels (`Priority` enum in atc_system.py). -/
inductive Priority where
  | LOW
  | MEDIUM
  | HIGH
  | CRITICAL
deriving DecidableEq

/-- `ATCInstruction`: the `parameters` dict always holds a single numeric
payload for the three instruction kinds the policy issues
(`new_altitude` / `new_heading` / `new_speed`), modelled as `param`. -/
structure ATCInstruction where
  callsign : String
  timestamp : ℚ
  instruction_type : InstructionType
  param : ℚ
  reason : String
  priority : Priority
deriving DecidableEq

/-- The mutable part of `ATCSystem`: the append-only instruction log and
its counter. -/
structure ATCState where
  instructions : List ATCInstruction
  instruction_count : ℕ
deriving DecidableEq

/-- The empty `ATCSystem` state. -/
def atcInit : ATCState := { instructions := [], instruction_count := 0 }

/-- `ATCSystem._try_altitude_resolution`: pick lower/higher aircraft by
current altitude, try the down-shift of the lower aircraft first, then the
climb of the higher one; the source compares against
`Aircraft.MIN_ALTITUDE` / `Aircraft.MAX_ALTITUDE`. -/
def try_altitude_resolution (ac1 ac2 : Aircraft) (c : Conflict) (now : ℚ) :
    Option ATCInstruction :=
  let req := reqFor ac1 ac2
  let lower_ac := if ac1.position.altitude < ac2.position.altitude then ac1 else ac2
  let higher_ac := if ac1.position.altitude < ac2.position.altitude then ac2 else ac1
  let newAlt1 := lower_ac.position.altitude - req.vertical_ft - 1000
  if newAlt1 ≥ Aircraft.MIN_ALTITUDE then
    some
      { callsign := lower_ac.callsign, timestamp := now,
        instruction_type := InstructionType.ALTITUDE_CHANGE, param := newAlt1,
        reason := "traffic_conflict",
        priority := if c.severity = "high" then Priority.HIGH else Priority.MEDIUM }
  else
    let newAlt2 := higher_ac.position.altitude + req.vertical_ft + 1000
    if newAlt2 ≤ Aircraft.MAX_ALTITUDE then
      some
        { callsign := higher_ac.callsign, timestamp := now,
          instruction_type := InstructionType.ALTITUDE_CHANGE, param := newAlt2,
          reason := "traffic_conflict",
          priority := if c.severity = "high" then Priority.HIGH else Priority.MEDIUM }
    else none

/-- `ATCSystem._try_heading_resolution`: vector the first aircraft 30
degrees right; always succeeds. -/
def try_heading_resolution (ac1 ac2 : Aircraft) (c : Conflict) (now : ℚ) :
    Option ATCInstruction :=
  some
    { callsign := ac1.callsign, timestamp := now,
      instruction_type := InstructionType.HEADING_CHANGE,
      param := pymod (ac1.velocity.heading + 30) 360,
      reason := "traffic_conflict",
      priority := if c.severity = "high" then Priority.HIGH else Priority.MEDIUM }

/-- `ATCSystem._try_speed_resolution`: slow the faster aircraft or speed
up the slower one; always succeeds. -/
def try_speed_resolution (ac1 ac2 : Aircraft) (c : Conflict) (now : ℚ) :
    Option ATCInstruction :=
  if ac1.velocity.speed > ac2.velocity.speed then
    some
      { callsign := ac1.callsign, timestamp := now,
        instruction_type := InstructionType.SPEED_CHANGE,
        param := max Aircraft.MIN_SPEED (ac1.velocity.speed - 50),
        reason := "traffic_conflict", priority := Priority.MEDIUM }
  else
    some
      { callsign := ac2.callsign, timestamp := now,
        instruction_type := InstructionType.SPEED_CHANGE,
        param := min Aircraft.MAX_SPEED (ac2.velocity.speed + 50),
        reason := "traffic_conflict", priority := Priority.MEDIUM }

/-- The effect of `ATCSystem._issue_instruction` on the target aircraft:
set the pending-target field matching the instruction kind. -/
def applyInstruction (inst : ATCInstruction) (ac : Aircraft) : Aircraft :=
  match inst.instruction_type with
  | InstructionType.ALTITUDE_CHANGE => Aircraft.set_altitude inst.param ac
  | InstructionType.HEADING_CHANGE => Aircraft.set_heading inst.param ac
  | InstructionType.SPEED_CHANGE => Aircraft.set_speed inst.param ac
  | _ => ac

/-- Replace the first list element with the given callsign (the Python
code mutates the object `next(...)` found, i.e. the first match). -/
def replaceFirst (l : List Aircraft) (cs : String) (f : Aircraft → Aircraft) : List Aircraft :=
  match l with
  | [] => []
  | ac :: rest =>
    if ac.callsign = cs then f ac :: rest else ac :: replaceFirst rest cs f

/-- `ATCSystem._issue_instruction`: append to the log, bump the counter,
and apply the instruction to the (first) aircraft with its callsign. -/
def issue_instruction (st : ATCState) (l : List Aircraft) (inst : ATCInstruction) :
    ATCState × List Aircraft :=
  ({ instructions := st.instructions ++ [inst],
     instruction_count := st.instruction_count + 1 },
   replaceFirst l inst.callsign (applyInstruction inst))

/-- The scanning loop body of `ATCSystem._recently_instructed`: walk the
given (newest-first) instructions, stop at the first one older than the
window, succeed on a callsign match. -/
def recentScan (now : ℚ) (c1 c2 : String) : List ATCInstruction → Bool
  | [] => false
  | i :: rest =>
    if now - i.timestamp > 60 then false
    else if i.callsign = c1 ∨ i.callsign = c2 then true
    else recentScan now c1 c2 rest

/-- `ATCSystem._recently_instructed` with the default 60-second window:
scan `reversed(instructions[-20:])`. -/
def recently_instructed (insts : List ATCInstruction) (c1 c2 : String) (now : ℚ) : Bool :=
  recentScan now c1 c2 ((insts.drop (insts.length - 20)).reverse)

/-- `ATCSystem._resolve_conflict`: look up both aircraft, apply the
cooldown, then try altitude, heading and speed resolution in order. -/
def resolve_conflict (c : Conflict) (l : List Aircraft) (now : ℚ) (st : ATCState) :
    ATCState × List Aircraft :=
  match l.find? (fun ac => ac.callsign == c.aircraft1),
      l.find? (fun ac => ac.callsign == c.aircraft2) with
  | some ac1, some ac2 =>
    if recently_instructed st.instructions c.aircraft1 c.aircraft2 now then (st, l)
    else
      match try_altitude_resolution ac1 ac2 c now with
      | some inst => issue_instruction st l inst
      | none =>
        match try_heading_resolution ac1 ac2 c now with
        | some inst => issue_instruction st l inst
        | none =>
          match try_speed_resolution ac1 ac2 c now with
          | some inst => issue_instruction st l inst
          | none => (st, l)
  | _, _ => (st, l)

/-- Record of a separation violation (`SeparationViolation` in
safety_evaluator.py).  `hSep2` carries the square of the source's
`horizontal_separation` (which is a `sqrt`). -/
structure SeparationViolation where
  aircraft1 : String
  aircraft2 : String
  timestamp : ℚ
  hSep2 : ℚ
  vertical_separation : ℚ
  duration : ℚ
  severity : String
deriving DecidableEq

/-- Record of a near-miss event (`NearMiss` in safety_evaluator.py).
`minSepRatioSq` carries the square of the source's
`min_separation_ratio` (whose horizontal component is a `sqrt`). -/
structure NearMiss where
  aircraft1 : String
  aircraft2 : String
  timestamp : ℚ
  hSep2 : ℚ
  vertical_separation : ℚ
  minSepRatioSq : ℚ
deriving DecidableEq

/-- `SafetyEvaluator.NEAR_MISS_THRESHOLD` (150% of minimum separation). -/
def NEAR_MISS_THRESHOLD : ℚ := 3 / 2

/-- `SafetyEvaluator.CRITICAL_VIOLATION_THRESHOLD` (50% of minimum). -/
def CRITICAL_VIOLATION_THRESHOLD : ℚ := 1 / 2

/-- The violation-tracking state of `SafetyEvaluator`: the append-only
violation history and the active map from canonical pair key to the index
of its (shared, mutable) record in the history. -/
structure EvalState where
  violations : List SeparationViolation
  active : List ((String × String) × ℕ)
deriving DecidableEq

/-- The empty `SafetyEvaluator` violation state. -/
def evalInit : EvalState := { violations := [], active := [] }

/-- Canonical pair key: `tuple(sorted([c1, c2]))`.  Python string order
is lexicographic by code point, which is the lexicographic order of the
character lists. -/
def sortKey (c1 c2 : String) : String × String :=
  if c2.data < c1.data then (c2, c1) else (c1, c2)

/-- First-match association-list lookup (dict access on the active map;
keys are unique because insertions only happen on missing keys). -/
def lookupKey : List ((String × String) × ℕ) → (String × String) → Option ℕ
  | [], _ => none
  | kv :: rest, key => if kv.1 = key then some kv.2 else lookupKey rest key

/-- Increment the `duration` of the record at the given index by 1 (the
source mutates the shared record object in place). -/
def bumpDuration : List SeparationViolation → ℕ → List SeparationViolation
  | [], _ => []
  | v :: rest, 0 => { v with duration := v.duration + 1 } :: rest
  | v :: rest, n + 1 => v :: bumpDuration rest n

/-- `SafetyEvaluator._classify_violation_severity`: thresholds on the
horizontal ratio `sqrt h2 / horizontal_nm`, compared through squares. -/
def classify_violation_severity (h2 : ℚ) (vSep : ℚ) (ac1 ac2 : Aircraft) : String :=
  let req := reqFor ac1 ac2
  let hRatio2 := h2 / req.horizontal_nm ^ 2
  if hRatio2 < CRITICAL_VIOLATION_THRESHOLD ^ 2 then "critical"
  else if hRatio2 < (3 / 4) ^ 2 then "major"
  else "minor"

/-- The per-pair body of the violation scan in
`SafetyEvaluator._check_violations`.  The source's assignment to the
`min_separation_achieved` property is a documented no-op (the setter is
`pass`) and is therefore not part of the state transition. -/
def violStep (t : ℚ) (st : EvalState) (pair : Aircraft × Aircraft) : EvalState :=
  if is_separated pair.1 pair.2 then st
  else
    let key := sortKey pair.1.callsign pair.2.callsign
    let sep := check_separation pair.1 pair.2
    match lookupKey st.active key with
    | none =>
      { violations :=
          st.violations ++
            [{ aircraft1 := pair.1.callsign, aircraft2 := pair.2.callsign, timestamp := t,
               hSep2 := sep.1, vertical_separation := sep.2, duration := 0,
               severity := classify_violation_severity sep.1 sep.2 pair.1 pair.2 }],
        active := st.active ++ [(key, st.violations.length)] }
    | some idx => { st with violations := bumpDuration st.violations idx }

/-- The canonical keys of the pairs violating separation in the given
list (the `current_violations` set of the source). -/
def currentViolationKeys (l : List Aircraft) : List (String × String) :=
  (allPairs l).filterMap fun p =>
    if is_separated p.1 p.2 then none else some (sortKey p.1.callsign p.2.callsign)

/-- `SafetyEvaluator._check_violations`: scan all pairs, then drop
resolved pairs from the active map (their history records remain). -/
def check_violations (l : List Aircraft) (t : ℚ) (st : EvalState) : EvalState :=
  let st1 := (allPairs l).foldl (violStep t) st
  { st1 with
      active := st1.active.filter fun kv => (currentViolationKeys l).any fun k => decide (k = kv.1) }

/-- The per-pair body of `SafetyEvaluator._check_near_misses`: for a
separated pair, build the minimum separation ratio (vertical component is
`+inf` when the vertical separation is zero, so the minimum then reduces
to the horizontal ratio) and record a near miss when it is below the
threshold.  Ratios are carried squared because the horizontal ratio is a
`sqrt` divided by the requirement; squaring preserves `min` and the
threshold comparison on nonnegatives. -/
def near_miss_check (ac1 ac2 : Aircraft) (t : ℚ) : Option NearMiss :=
  let sep := check_separation ac1 ac2
  let req := reqFor ac1 ac2
  if is_separated ac1 ac2 then
    let hRatio2 := sep.1 / req.horizontal_nm ^ 2
    let minRatio2 :=
      if sep.2 > 0 then min hRatio2 ((sep.2 / req.vertical_ft) ^ 2) else hRatio2
    if minRatio2 < NEAR_MISS_THRESHOLD ^ 2 then
      some
        { aircraft1 := ac1.callsign, aircraft2 := ac2.callsign, timestamp := t,
          hSep2 := sep.1, vertical_separation := sep.2, minSepRatioSq := minRatio2 }
    else none
  else none

/-- `SafetyEvaluator._check_near_misses`: point-in-time records for all
separated-but-close pairs of this tick. -/
def check_near_misses (l : List Aircraft) (t : ℚ) : List NearMiss :=
  (allPairs l).filterMap fun p => near_miss_check p.1 p.2 t

/-- An ATC action applied to a single aircraft: one kinematic tick or one
of the three instruction setters. -/
inductive AcAction where
  | upd (dt : ℚ)
  | setAlt (a : ℚ)
  | setHdg (h : ℚ)
  | setSpd (v : ℚ)

/-- Apply one `AcAction`. -/
def applyAction (trig : Trig) : AcAction → Aircraft → Aircraft
  | AcAction.upd dt, s => Aircraft.update trig dt s
  | AcAction.setAlt a, s => Aircraft.set_altitude a s
  | AcAction.setHdg h, s => Aircraft.set_heading h s
  | AcAction.setSpd v, s => Aircraft.set_speed v s

/-- Apply a sequence of `AcAction`s in order. -/
def runActions (trig : Trig) (acts : List AcAction) (s : Aircraft) : Aircraft :=
  acts.foldl (fun st act => applyAction trig act st) s

/-- The state invariant claimed for aircraft: altitude, speed and heading
in their operating ranges. -/
def InRange (s : Aircraft) : Prop :=
  (Aircraft.MIN_ALTITUDE ≤ s.position.altitude ∧ s.position.altitude ≤ Aircraft.MAX_ALTITUDE) ∧
  (Aircraft.MIN_SPEED ≤ s.velocity.speed ∧ s.velocity.speed ≤ Aircraft.MAX_SPEED) ∧
  (0 ≤ s.velocity.heading ∧ s.velocity.heading < 360)

/-- An optional value within bounds when present. -/
def OptBounded (lo hi : ℚ) (o : Option ℚ) : Prop :=
  ∀ x, o = some x → lo ≤ x ∧ x ≤ hi

/-- The pending-target fields within their ranges when present. -/
def TargetsOK (s : Aircraft) : Prop :=
  OptBounded Aircraft.MIN_ALTITUDE Aircraft.MAX_ALTITUDE s.target_altitude ∧
  (∀ h, s.target_heading = some h → 0 ≤ h ∧ h < 360) ∧
  OptBounded Aircraft.MIN_SPEED Aircraft.MAX_SPEED s.target_speed

/-- Every waypoint altitude of the flight plan within the operating
range. -/
def PlanOK (s : Aircraft) : Prop :=
  ∀ wp ∈ s.flightPlan, ∀ a, wp.altitude = some a →
    Aircraft.MIN_ALTITUDE ≤ a ∧ a ≤ Aircraft.MAX_ALTITUDE

/-- The combined aircraft invariant. -/
def Inv (s : Aircraft) : Prop := InRange s ∧ TargetsOK s ∧ PlanOK s

instance (s : Aircraft) : Decidable (InRange s) := by
  unfold InRange
  infer_instance

theorem pymod_nonneg (a : ℚ) {b : ℚ} (hb : 0 < b) : 0 ≤ pymod a b := by
  have h1 : (⌊a / b⌋ : ℚ) ≤ a / b := Int.floor_le _
  have h2 : b * (⌊a / b⌋ : ℚ) ≤ b * (a / b) := by
    exact mul_le_mul_of_nonneg_left h1 hb.le
  have h3 : b * (a / b) = a := by field_simp
  unfold pymod
  linarith

theorem pymod_lt (a : ℚ) {b : ℚ} (hb : 0 < b) : pymod a b < b := by
  have h1 : a / b < (⌊a / b⌋ : ℚ) + 1 := Int.lt_floor_add_one _
  have h2 : b * (a / b) < b * ((⌊a / b⌋ : ℚ) + 1) := by
    exact mul_lt_mul_of_pos_left h1 hb
  have h3 : b * (a / b) = a := by field_simp
  unfold pymod
  nlinarith

theorem le_clampQ {lo hi : ℚ} (v : ℚ) : lo ≤ clampQ lo hi v := le_max_left _ _

theorem clampQ_le {lo hi : ℚ} (h : lo ≤ hi) (v : ℚ) : clampQ lo hi v ≤ hi :=
  max_le h (min_le_left _ _)

theorem inv_alt_update (s : Aircraft) (h : Inv s) (v : ℚ)
    (hv : Aircraft.MIN_ALTITUDE ≤ v ∧ v ≤ Aircraft.MAX_ALTITUDE) (o : Option ℚ)
    (ho : OptBounded Aircraft.MIN_ALTITUDE Aircraft.MAX_ALTITUDE o) :
    Inv { s with position := { s.position with altitude := v }, target_altitude := o } := by
  obtain ⟨⟨_, hspd, hhdg⟩, ⟨_, hth, hts⟩, hplan⟩ := h
  exact ⟨⟨hv, hspd, hhdg⟩, ⟨ho, hth, hts⟩, hplan⟩

theorem inv_hdg_update (s : Aircraft) (h : Inv s) (v : ℚ) (hv : 0 ≤ v ∧ v < 360)
    (o : Option ℚ) (ho : ∀ x, o = some x → 0 ≤ x ∧ x < 360) :
    Inv { s with velocity := { s.velocity with heading := v }, target_heading := o } := by
  obtain ⟨⟨halt, hspd, _⟩, ⟨hta, _, hts⟩, hplan⟩ := h
  exact ⟨⟨halt, hspd, hv⟩, ⟨hta, ho, hts⟩, hplan⟩

theorem inv_spd_update (s : Aircraft) (h : Inv s) (v : ℚ)
    (hv : Aircraft.MIN_SPEED ≤ v ∧ v ≤ Aircraft.MAX_SPEED) (o : Option ℚ)
    (ho : OptBounded Aircraft.MIN_SPEED Aircraft.MAX_SPEED o) :
    Inv { s with velocity := { s.velocity with speed := v }, target_speed := o } := by
  obtain ⟨⟨halt, _, hhdg⟩, ⟨hta, hth, _⟩, hplan⟩ := h
  exact ⟨⟨halt, hv, hhdg⟩, ⟨hta, hth, ho⟩, hplan⟩

theorem inv_target_alt (s : Aircraft) (h : Inv s) {a : ℚ}
    (ha : Aircraft.MIN_ALTITUDE ≤ a ∧ a ≤ Aircraft.MAX_ALTITUDE) :
    Inv { s with target_altitude := some a } := by
  obtain ⟨hin, ⟨_, hth, hts⟩, hplan⟩ := h
  refine ⟨hin, ⟨?_, hth, hts⟩, hplan⟩
  intro x hx
  cases hx
  exact ha

theorem inv_target_hdg (s : Aircraft) (h : Inv s) {a : ℚ} (ha : 0 ≤ a ∧ a < 360) :
    Inv { s with target_heading := some a } := by
  obtain ⟨hin, ⟨hta, _, hts⟩, hplan⟩ := h
  refine ⟨hin, ⟨hta, ?_, hts⟩, hplan⟩
  intro x hx
  cases hx
  exact ha

theorem min_le_max_altitude : Aircraft.MIN_ALTITUDE ≤ Aircraft.MAX_ALTITUDE := by
  unfold Aircraft.MIN_ALTITUDE Aircraft.MAX_ALTITUDE
  norm_num

theorem min_le_max_speed : Aircraft.MIN_SPEED ≤ Aircraft.MAX_SPEED := by
  unfold Aircraft.MIN_SPEED Aircraft.MAX_SPEED
  norm_num

theorem inv_alt_clamp (s : Aircraft) (h : Inv s) (w : ℚ) (o : Option ℚ)
    (ho : OptBounded Aircraft.MIN_ALTITUDE Aircraft.MAX_ALTITUDE o) :
    Inv { s with
            position :=
              { s.position with
                  altitude := clampQ Aircraft.MIN_ALTITUDE Aircraft.MAX_ALTITUDE w },
            target_altitude := o } :=
  inv_alt_update s h (clampQ Aircraft.MIN_ALTITUDE Aircraft.MAX_ALTITUDE w)
    ⟨le_clampQ w, clampQ_le min_le_max_altitude w⟩ o ho

theorem inv_spd_clamp (s : Aircraft) (h : Inv s) (w : ℚ) (o : Option ℚ)
    (ho : OptBounded Aircraft.MIN_SPEED Aircraft.MAX_SPEED o) :
    Inv { s with
            velocity :=
              { s.velocity with speed := clampQ Aircraft.MIN_SPEED Aircraft.MAX_SPEED w },
            target_speed := o } :=
  inv_spd_update s h (clampQ Aircraft.MIN_SPEED Aircraft.MAX_SPEED w)
    ⟨le_clampQ w, clampQ_le min_le_max_speed w⟩ o ho

theorem inv_update_altitude (dt : ℚ) {s : Aircraft} (h : Inv s) :
    Inv (Aircraft.update_altitude dt s) := by
  have hT := h.2.1.1
  have hP := h.2.2
  unfold Aircraft.update_altitude
  split
  case h_1 heq =>
    split
    case isTrue hidx =>
      split
      case h_1 a hwp =>
        refine inv_target_alt s h ?_
        exact hP _ (List.getElem_mem hidx) a hwp
      case h_2 => exact h
    case isFalse => exact h
  case h_2 tgt heq =>
    have htgt := hT tgt heq
    dsimp only
    split
    case isTrue =>
      exact inv_alt_update s h tgt htgt none fun x hx => by cases hx
    case isFalse =>
      split
      all_goals split
      all_goals
        first
        | exact inv_alt_clamp s h _ none fun x hx => by cases hx
        | exact inv_alt_clamp s h _ s.target_altitude hT

theorem inv_hdg_pymod (s : Aircraft) (h : Inv s) (w : ℚ) (o : Option ℚ)
    (ho : ∀ x, o = some x → 0 ≤ x ∧ x < 360) :
    Inv { s with
            velocity := { s.velocity with heading := pymod w 360 }, target_heading := o } :=
  inv_hdg_update s h (pymod w 360)
    ⟨pymod_nonneg w (by norm_num), pymod_lt w (by norm_num)⟩ o ho

theorem inv_update_heading (trig : Trig) (dt : ℚ) {s : Aircraft} (h : Inv s) :
    Inv (Aircraft.update_heading trig dt s) := by
  have hTh := h.2.1.2.1
  unfold Aircraft.update_heading
  split
  case h_1 heq =>
    split
    case isTrue hidx =>
      refine inv_target_hdg s h ⟨?_, ?_⟩
      case refine_1 => exact pymod_nonneg _ (by norm_num)
      case refine_2 => exact pymod_lt _ (by norm_num)
    case isFalse => exact h
  case h_2 tgt heq =>
    have htgt := hTh tgt heq
    dsimp only
    split
    case isTrue =>
      exact inv_hdg_update s h tgt htgt none fun x hx => by cases hx
    case isFalse =>
      split
      all_goals
        first
        | exact inv_hdg_pymod s h _ none fun x hx => by cases hx
        | exact inv_hdg_pymod s h _ s.target_heading hTh

theorem inv_update_speed (dt : ℚ) {s : Aircraft} (h : Inv s) :
    Inv (Aircraft.update_speed dt s) := by
  have hTs := h.2.1.2.2
  unfold Aircraft.update_speed
  split
  case h_1 => exact h
  case h_2 tgt heq =>
    have htgt := hTs tgt heq
    dsimp only
    split
    case isTrue =>
      exact inv_spd_update s h tgt htgt none fun x hx => by cases hx
    case isFalse =>
      split
      all_goals
        first
        | exact inv_spd_clamp s h _ none fun x hx => by cases hx
        | exact inv_spd_clamp s h _ s.target_speed hTs

theorem inv_update_position (trig : Trig) (dt : ℚ) {s : Aircraft} (h : Inv s) :
    Inv (Aircraft.update_position trig dt s) := by
  obtain ⟨⟨halt, hspd, hhdg⟩, hT, hplan⟩ := h
  exact ⟨⟨halt, hspd, hhdg⟩, hT, hplan⟩

theorem inv_check_waypoint {s : Aircraft} (h : Inv s) :
    Inv (Aircraft.check_waypoint_progress s) := by
  unfold Aircraft.check_waypoint_progress
  split
  case isTrue =>
    dsimp only
    split
    case isTrue => exact ⟨h.1, h.2.1, h.2.2⟩
    case isFalse => exact h
  case isFalse => exact h

theorem inv_time {s : Aircraft} (h : Inv s) (t : ℚ) :
    Inv { s with time_in_simulation := t } :=
  ⟨h.1, h.2.1, h.2.2⟩

theorem inv_update (trig : Trig) (dt : ℚ) {s : Aircraft} (h : Inv s) :
    Inv (Aircraft.update trig dt s) :=
  inv_check_waypoint
    (inv_update_position trig dt
      (inv_update_speed dt
        (inv_update_heading trig dt
          (inv_update_altitude dt (inv_time h (s.time_in_simulation + dt))))))

theorem inv_set_altitude (a : ℚ) {s : Aircraft} (h : Inv s) :
    Inv (Aircraft.set_altitude a s) := by
  obtain ⟨hin, ⟨_, hth, hts⟩, hplan⟩ := h
  refine ⟨hin, ⟨?_, hth, hts⟩, hplan⟩
  intro x hx
  cases hx
  exact ⟨le_clampQ _, clampQ_le min_le_max_altitude _⟩

theorem inv_set_heading (a : ℚ) {s : Aircraft} (h : Inv s) :
    Inv (Aircraft.set_heading a s) := by
  obtain ⟨hin, ⟨hta, _, hts⟩, hplan⟩ := h
  refine ⟨hin, ⟨hta, ?_, hts⟩, hplan⟩
  intro x hx
  cases hx
  exact ⟨pymod_nonneg _ (by norm_num), pymod_lt _ (by norm_num)⟩

theorem inv_set_speed (a : ℚ) {s : Aircraft} (h : Inv s) :
    Inv (Aircraft.set_speed a s) := by
  obtain ⟨hin, ⟨hta, hth, _⟩, hplan⟩ := h
  refine ⟨hin, ⟨hta, hth, ?_⟩, hplan⟩
  intro x hx
  cases hx
  exact ⟨le_clampQ _, clampQ_le min_le_max_speed _⟩

theorem inv_runActions (trig : Trig) (acts : List AcAction) {s : Aircraft} (h : Inv s) :
    Inv (runActions trig acts s) := by
  induction acts generalizing s with
  | nil => exact h
  | cons act rest ih =>
    cases act with
    | upd dt => exact ih (inv_update trig dt h)
    | setAlt a => exact ih (inv_set_altitude a h)
    | setHdg a => exact ih (inv_set_heading a h)
    | setSpd a => exact ih (inv_set_speed a h)

/-- A waypoint with an in-range target altitude, for concrete runs. -/
def wpW : Waypoint := { name := "W1", x := 50, y := 50, altitude := some 20000 }

/-- A concrete in-range aircraft following `wpW`. -/
def acW : Aircraft :=
  { callsign := "UAL1", position := { x := 0, y := 0, altitude := 10000 },
    velocity := { speed := 300, heading := 45 }, flightPlan := [wpW],
    aircraftType := "B737", status := AircraftStatus.ENROUTE,
    target_altitude := none, target_heading := none, target_speed := none,
    current_waypoint_index := 0, time_in_simulation := 0 }

/-- A concrete action sequence mixing ticks and ATC instructions. -/
def actsW : List AcAction :=
  [AcAction.upd 1, AcAction.setAlt 30000, AcAction.setHdg 90, AcAction.setSpd 400,
   AcAction.upd 1]

/-- A waypoint whose target altitude lies below the 1000 ft floor. -/
def wpBad : Waypoint := { name := "LOW", x := 50, y := 50, altitude := some 995 }

/-- An in-range aircraft whose flight plan leads below the floor. -/
def acBad : Aircraft :=
  { callsign := "UAL2", position := { x := 0, y := 0, altitude := 1000 },
    velocity := { speed := 300, heading := 90 }, flightPlan := [wpBad],
    aircraftType := "B737", status := AircraftStatus.ENROUTE,
    target_altitude := none, target_heading := none, target_speed := none,
    current_waypoint_index := 0, time_in_simulation := 0 }

/-- C1 (amended): for an aircraft whose altitude, speed and heading start
in range, whose pending targets (when set) are in range, and whose flight
plan only names waypoint altitudes within [1000, 45000] ft, any sequence
of `Aircraft.update` ticks (positive time steps) and ATC instructions
`set_altitude` / `set_heading` / `set_speed` keeps altitude in
[1000, 45000] ft, speed in [120, 550] kt and heading in [0, 360). -/
theorem c1_state_ranges_preserved (trig : Trig) (acts : List AcAction) (s : Aircraft)
    (hIR : InRange s) (hT : TargetsOK s) (hP : PlanOK s)
    (hdt : ∀ dt, AcAction.upd dt ∈ acts → 0 < dt) :
    InRange (runActions trig acts s) :=
  (inv_runActions trig acts ⟨hIR, hT, hP⟩).1

/-- Witness for C1 (amended) at a concrete aircraft and action list. -/
theorem c1_state_ranges_preserved_witness :
    InRange acW ∧ TargetsOK acW ∧ PlanOK acW ∧ InRange (runActions trigZero actsW acW) := by
  have h1 : InRange acW := by decide
  have h2 : TargetsOK acW := by
    refine ⟨?_, ?_, ?_⟩ <;> intro x hx <;> simp [acW] at hx
  have h3 : PlanOK acW := by
    intro wp hwp a ha
    simp [acW, wpW] at hwp
    subst hwp
    simp [wpW] at ha
    subst ha
    constructor
    case left =>
      unfold Aircraft.MIN_ALTITUDE
      norm_num
    case right =>
      unfold Aircraft.MAX_ALTITUDE
      norm_num
  refine ⟨h1, h2, h3, c1_state_ranges_preserved trigZero actsW acW h1 h2 h3 ?_⟩
  intro dt hdt
  simp [actsW] at hdt
  subst hdt
  norm_num

/-- Counterexample to C1 as stated: an aircraft that starts fully in
range but whose flight plan names a waypoint altitude of 995 ft is
snapped to 995 ft (below the 1000 ft floor) on the second tick — the
within-10-feet snap path of `_update_altitude` bypasses the clamp and the
flight-plan target is adopted unclamped. -/
theorem c1_state_ranges_counterexample :
    InRange acBad ∧
      ¬ InRange (runActions trigZero [AcAction.upd 1, AcAction.upd 1] acBad) := by
  constructor
  case left => decide
  case right => decide

/-- A plain enroute aircraft with no flight plan and no pending targets,
for concrete separation scenarios. -/
def plainAC (x y alt spd hdg : ℚ) (cs : String) : Aircraft :=
  { callsign := cs, position := { x := x, y := y, altitude := alt },
    velocity := { speed := spd, heading := hdg }, flightPlan := [],
    aircraftType := "B737", status := AircraftStatus.ENROUTE,
    target_altitude := none, target_heading := none, target_speed := none,
    current_waypoint_index := 0, time_in_simulation := 0 }

theorem dist2_nonneg (p q : Position) : 0 ≤ Position.dist2 p q := by
  unfold Position.dist2
  positivity

theorem reqFor_horizontal_pos (a b : Aircraft) : 0 < (reqFor a b).horizontal_nm := by
  unfold reqFor SeparationRequirements.standard
  split <;> norm_num

theorem reqFor_vertical_pos (a b : Aircraft) : 0 < (reqFor a b).vertical_ft := by
  unfold reqFor SeparationRequirements.standard
  split <;> norm_num

/-- Bridge: comparing a nonnegative threshold against a real square root
is comparing its square against the radicand. -/
theorem sqrt_ge_iff_sq_le {c d : ℚ} (hc : 0 ≤ c) (hd : 0 ≤ d) :
    ((c : ℝ) ≤ Real.sqrt (d : ℝ)) ↔ c ^ 2 ≤ d := by
  rw [Real.le_sqrt (by exact_mod_cast hc) (by exact_mod_cast hd)]
  exact_mod_cast Iff.rfl

/-- Bridge: a real square root is below a positive threshold exactly when
the radicand is below its square. -/
theorem sqrt_lt_iff_lt_sq {c d : ℚ} (hc : 0 < c) :
    (Real.sqrt (d : ℝ) < (c : ℝ)) ↔ d < c ^ 2 := by
  rw [Real.sqrt_lt' (by exact_mod_cast hc)]
  exact_mod_cast Iff.rfl

/-- Aircraft at exactly the 5 NM / 1000 ft boundary below FL290. -/
def acSepA : Aircraft := plainAC 0 0 10000 300 90 "SEPA"

/-- Aircraft at exactly the 5 NM / 1000 ft boundary below FL290. -/
def acSepB : Aircraft := plainAC 5 0 11000 300 90 "SEPB"

/-- Aircraft at 4.99 NM / 999 ft. -/
def acCloseA : Aircraft := plainAC 0 0 10000 300 90 "CLOA"

/-- Aircraft at 4.99 NM / 999 ft. -/
def acCloseB : Aircraft := plainAC (499 / 100) 0 10999 300 90 "CLOB"

/-- C2: `is_separated` holds exactly when the horizontal distance (the
real square root of the stored squared distance) is at least the required
`horizontal_nm` or the vertical separation is at least the required
`vertical_ft`, the requirements coming from
`SeparationRequirements.standard` of the pair's average altitude; the
comparison is inclusive: a pair at exactly 5.0 NM and 1000 ft below FL290
is separated, while one at 4.99 NM and 999 ft is not. -/
theorem c2_is_separated_characterization :
    (∀ a b : Aircraft,
        is_separated a b = true ↔
          (((reqFor a b).horizontal_nm : ℝ) ≤ Real.sqrt ((check_separation a b).1 : ℝ) ∨
            (reqFor a b).vertical_ft ≤ (check_separation a b).2)) ∧
      is_separated acSepA acSepB = true ∧ is_separated acCloseA acCloseB = false := by
  refine ⟨?_, by decide, by decide⟩
  intro a b
  unfold is_separated
  rw [Bool.or_eq_true, decide_eq_true_iff, decide_eq_true_iff]
  constructor
  case mp =>
    rintro (h | h)
    case inl =>
      left
      exact (sqrt_ge_iff_sq_le (reqFor_horizontal_pos a b).le
        (dist2_nonneg a.position b.position)).mpr h
    case inr => right; exact h
  case mpr =>
    rintro (h | h)
    case inl =>
      left
      exact (sqrt_ge_iff_sq_le (reqFor_horizontal_pos a b).le
        (dist2_nonneg a.position b.position)).mp h
    case inr => right; exact h

/-- The sample index `t` is the first minimizer of `f` on `[0, n)`. -/
def IsFirstMinOn (f : ℕ → ℚ) (n t : ℕ) : Prop :=
  t < n ∧ (∀ s, s < n → f t ≤ f s) ∧ (∀ s, s < t → f t < f s)

instance (f : ℕ → ℚ) (n t : ℕ) : Decidable (IsFirstMinOn f n t) := by
  unfold IsFirstMinOn
  infer_instance

theorem isFirstMinOn_unique (f : ℕ → ℚ) (n t t' : ℕ) (h : IsFirstMinOn f n t)
    (h' : IsFirstMinOn f n t') : t = t' := by
  obtain ⟨htn, hmin, hstrict⟩ := h
  obtain ⟨htn', hmin', hstrict'⟩ := h'
  rcases lt_trichotomy t t' with hlt | heq | hgt
  · exact absurd (hmin t' htn') (not_le.mpr (hstrict' t hlt))
  · exact heq
  · exact absurd (hmin' t htn) (not_le.mpr (hstrict t' hgt))

theorem cpaScan_succ (trig : Trig) (a b : Aircraft) (n : ℕ) :
    cpaScan trig a b (n + 1) = cpaStep trig a b (cpaScan trig a b n) n := by
  unfold cpaScan
  rw [List.range_succ, List.foldl_append]
  rfl

/-- The sampling loop returns the first minimizer of the squared
horizontal separation together with the co-sampled vertical separation. -/
theorem cpaScan_isFirstMin (trig : Trig) (a b : Aircraft) :
    ∀ n, 1 ≤ n →
      ∃ t, IsFirstMinOn (hSep2At trig a b) n t ∧
        cpaScan trig a b n = some (hSep2At trig a b t, vSepAt trig a b t, t) := by
  intro n
  induction n with
  | zero => intro h; omega
  | succ n ih =>
    intro _
    rcases Nat.eq_zero_or_pos n with hn0 | hn1
    case inl =>
      subst hn0
      refine ⟨0, ⟨by omega, ?_, ?_⟩, rfl⟩
      case refine_1 =>
        intro s hs
        interval_cases s
        exact le_refl _
      case refine_2 => intro s hs; omega
    case inr =>
      obtain ⟨t, ⟨htn, hmin, hstrict⟩, hscan⟩ := ih hn1
      rw [cpaScan_succ, hscan]
      by_cases hlt : hSep2At trig a b n < hSep2At trig a b t
      case pos =>
        refine ⟨n, ⟨by omega, ?_, ?_⟩, ?_⟩
        case refine_1 =>
          intro s hs
          rcases Nat.lt_succ_iff_lt_or_eq.mp hs with hs' | hs'
          case inl => exact (hlt.trans_le (hmin s hs')).le
          case inr => subst hs'; exact le_refl _
        case refine_2 =>
          intro s hs
          exact hlt.trans_le (hmin s hs)
        case refine_3 =>
          unfold cpaStep
          simp [hlt]
      case neg =>
        refine ⟨t, ⟨by omega, ?_, hstrict⟩, ?_⟩
        case refine_1 =>
          intro s hs
          rcases Nat.lt_succ_iff_lt_or_eq.mp hs with hs' | hs'
          case inl => exact hmin s hs'
          case inr => subst hs'; exact not_lt.mp hlt
        case refine_2 =>
          unfold cpaStep
          simp [hlt]

/-- C3: for every pair, the detector samples integer second offsets
`t = 0 .. lookahead-1` of the constant-velocity predictor, tracks the
first sample minimizing the horizontal separation, records the vertical
separation at that same sample, and emits a conflict exactly when the
minimum horizontal separation is below the required `horizontal_nm` and
the co-sampled vertical separation is below the required `vertical_ft`;
the conflict carries that sample's time as `time_to_cpa`. -/
theorem c3_conflict_detection_matches_cpa_spec (trig : Trig) (a b : Aircraft) (n t : ℕ)
    (hn : 1 ≤ n) (ht : IsFirstMinOn (hSep2At trig a b) n t) :
    check_pair_for_conflict trig a b n =
      if hSep2At trig a b t < (reqFor a b).horizontal_nm ^ 2 ∧
          vSepAt trig a b t < (reqFor a b).vertical_ft then
        some
          { aircraft1 := a.callsign, aircraft2 := b.callsign, time_to_cpa := t,
            hSep2_at_cpa := hSep2At trig a b t,
            vertical_separation_at_cpa := vSepAt trig a b t,
            severity :=
              calculate_severity (hSep2At trig a b t) (vSepAt trig a b t) t (reqFor a b) }
      else none := by
  obtain ⟨t0, ht0, hscan⟩ := cpaScan_isFirstMin trig a b n hn
  obtain rfl : t = t0 := isFirstMinOn_unique _ n t t0 ht ht0
  unfold check_pair_for_conflict
  rw [hscan]

/-- Motionless scenario aircraft for the C3 witness. -/
def acPredA : Aircraft := plainAC 0 0 10000 300 0 "PRA"

/-- Motionless scenario aircraft for the C3 witness. -/
def acPredB : Aircraft := plainAC 3 0 10000 300 0 "PRB"

/-- Witness for C3 at a concrete pair and lookahead. -/
theorem c3_conflict_detection_matches_cpa_spec_witness :
    1 ≤ 2 ∧ IsFirstMinOn (hSep2At trigZero acPredA acPredB) 2 0 ∧
      check_pair_for_conflict trigZero acPredA acPredB 2 =
        some
          { aircraft1 := acPredA.callsign, aircraft2 := acPredB.callsign, time_to_cpa := 0,
            hSep2_at_cpa := 9, vertical_separation_at_cpa := 0, severity := "high" } := by
  refine ⟨by norm_num, by decide, ?_⟩
  rw [c3_conflict_detection_matches_cpa_spec trigZero acPredA acPredB 2 0 (by norm_num)
    (by decide)]
  decide

/-- First aircraft of the head-on scenario of the spec. -/
def acC4a : Aircraft := plainAC 50 100 35000 450 90 "C4A"

/-- Second aircraft of the head-on scenario of the spec. -/
def acC4b : Aircraft := plainAC 150 100 35000 450 270 "C4B"

/-- Trigonometric primitives agreeing with exact real trigonometry on
the two headings the head-on scenario uses:
sin 90° = 1, sin 270° = −1, cos 90° = cos 270° = 0. -/
def trig4 : Trig where
  sinDeg := fun h => if h = 90 then 1 else if h = 270 then -1 else 0
  cosDeg := fun _ => 0
  atan2Deg := fun _ _ => 0

theorem c4_hSep2 (t : ℕ) :
    hSep2At trig4 acC4a acC4b t = ((t : ℚ) / 4 - 100) ^ 2 := by
  unfold hSep2At Aircraft.predict_position Position.dist2 acC4a acC4b plainAC trig4
  norm_num
  ring

theorem c4_strict {s t : ℕ} (hst : s < t) (ht : t ≤ 299) :
    hSep2At trig4 acC4a acC4b t < hSep2At trig4 acC4a acC4b s := by
  rw [c4_hSep2, c4_hSep2]
  have hs : (s : ℚ) < t := by exact_mod_cast hst
  have ht' : (t : ℚ) ≤ 299 := by exact_mod_cast ht
  have hs0 : (0 : ℚ) ≤ s := by positivity
  nlinarith [hs, ht', hs0]

theorem c4_firstmin : IsFirstMinOn (hSep2At trig4 acC4a acC4b) 300 299 := by
  refine ⟨by norm_num, ?_, ?_⟩
  case refine_1 =>
    intro s hs
    rcases Nat.lt_succ_iff_lt_or_eq.mp hs with hs' | hs'
    · exact (c4_strict hs' le_rfl).le
    · subst hs'; exact le_refl _
  case refine_2 =>
    intro s hs
    exact c4_strict hs le_rfl

/-- The head-on scenario's 300-sample scan: the minimum horizontal
separation in the window is 25.25 NM (squared: 10201/16), reached at the
last sample t = 299, with the co-sampled vertical separation 0. -/
theorem c4_scan_eq : cpaScan trig4 acC4a acC4b 300 = some (10201 / 16, 0, 299) := by
  obtain ⟨t0, ht0, hscan⟩ := cpaScan_isFirstMin trig4 acC4a acC4b 300 (by norm_num)
  obtain rfl : t0 = 299 := isFirstMinOn_unique _ 300 t0 299 ht0 c4_firstmin
  rw [hscan, c4_hSep2]
  norm_num
  unfold vSepAt Aircraft.predict_position acC4a acC4b plainAC
  norm_num

/-- Counterexample to C4 as stated: the two head-on aircraft 100 NM
apart closing at 900 kt do NOT produce a conflict under the default
300-second lookahead — the closing speed is 0.25 NM/s, so the smallest
sampled separation in the window (at t = 299) is still 25.25 NM, not
below the 5 NM requirement. -/
theorem c4_head_on_scenario_counterexample :
    check_pair_for_conflict trig4 acC4a acC4b 300 = none := by
  unfold check_pair_for_conflict
  rw [c4_scan_eq]
  decide

/-- C4 (amended): for the head-on scenario (one aircraft at (50, 100) at
35000 ft heading 90° at 450 kt, the other at (150, 100) at 35000 ft
heading 270° at 450 kt), `detect_conflicts` with the default 300-second
lookahead returns no conflict for the pair: the sampling window's minimum
horizontal separation is 25.25 NM (squared 10201/16, at sample t = 299),
which is not below the required 5 NM, so the pair closes below 5 NM only
beyond the lookahead horizon (at about t = 380 s). -/
theorem c4_head_on_scenario :
    detect_conflicts trig4 [acC4a, acC4b] 300 = [] ∧
      cpaScan trig4 acC4a acC4b 300 = some (10201 / 16, 0, 299) ∧
      ¬ ((10201 : ℚ) / 16 < (reqFor acC4a acC4b).horizontal_nm ^ 2) := by
  have hnone : check_pair_for_conflict trig4 acC4a acC4b 300 = none := by
    unfold check_pair_for_conflict
    rw [c4_scan_eq]
    decide
  refine ⟨?_, c4_scan_eq, by decide⟩
  unfold detect_conflicts
  simp [allPairs, hnone]

/-- Violating pair, first tick: 1 NM apart at the same altitude. -/
def acV1a : Aircraft := plainAC 0 0 10000 300 90 "VA"

/-- Violating pair, first tick. -/
def acV1b : Aircraft := plainAC 1 0 10000 300 90 "VB"

/-- The same pair one tick later: now 2 NM apart, still violating. -/
def acV2a : Aircraft := plainAC 0 0 10000 300 90 "VA"

/-- The same pair one tick later. -/
def acV2b : Aircraft := plainAC 2 0 10000 300 90 "VB"

theorem bumpDuration_get (l : List SeparationViolation) (i : ℕ) :
    (bumpDuration l i)[i]? =
      (l[i]?).map fun v => { v with duration := v.duration + 1 } := by
  induction l generalizing i with
  | nil => simp [bumpDuration]
  | cons v rest ih =>
    cases i with
    | zero => simp [bumpDuration]
    | succ n => simpa [bumpDuration] using ih n

/-- C5 (amended): while a pair remains in violation over consecutive
Safety Monitor ticks, its record keeps the horizontal and vertical
separation measured on the FIRST violating tick: a tick that observes the
pair still violating only increments the record's duration by 1, leaving
every other field (including the stored separations) and the active map
unchanged. -/
theorem c5_active_violation_keeps_first_seen (t : ℚ) (st : EvalState) (ac1 ac2 : Aircraft)
    (idx : ℕ) (hsep : is_separated ac1 ac2 = false)
    (hidx : lookupKey st.active (sortKey ac1.callsign ac2.callsign) = some idx) :
    (violStep t st (ac1, ac2)).violations[idx]? =
        (st.violations[idx]?).map (fun v => { v with duration := v.duration + 1 }) ∧
      (violStep t st (ac1, ac2)).active = st.active := by
  unfold violStep
  simp only [hsep, Bool.false_eq_true, if_false]
  rw [hidx]
  exact ⟨bumpDuration_get _ _, rfl⟩

/-- Witness for C5 (amended): the concrete pair first seen 1 NM apart and
observed 2 NM apart on the next tick. -/
theorem c5_active_violation_keeps_first_seen_witness :
    is_separated acV2a acV2b = false ∧
      lookupKey (check_violations [acV1a, acV1b] 0 evalInit).active
          (sortKey acV2a.callsign acV2b.callsign) = some 0 ∧
      (violStep 1 (check_violations [acV1a, acV1b] 0 evalInit) (acV2a, acV2b)).violations[0]? =
        ((check_violations [acV1a, acV1b] 0 evalInit).violations[0]?).map
          (fun v => { v with duration := v.duration + 1 }) := by
  refine ⟨by decide, by decide, ?_⟩
  exact (c5_active_violation_keeps_first_seen 1 (check_violations [acV1a, acV1b] 0 evalInit)
    acV2a acV2b 0 (by decide) (by decide)).1

/-- Counterexample to C5 as stated: after the pair (1 NM apart on tick
one, 2 NM apart — squared 4 — on tick two, violating on both) is
processed by two `_check_violations` passes, its record still stores the
tick-one squared separation 1, not the separation measured on the second
tick. -/
theorem c5_last_observed_counterexample :
    ((check_violations [acV2a, acV2b] 1
          (check_violations [acV1a, acV1b] 0 evalInit)).violations.map
        fun v => v.hSep2) = [1] ∧
      (check_separation acV2a acV2b).1 = 4 ∧ is_separated acV2a acV2b = false := by
  decide

theorem allPairs_mem {α : Type} {l : List α} {x y : α} (h : (x, y) ∈ allPairs l) :
    x ∈ l ∧ y ∈ l := by
  induction l with
  | nil => simp [allPairs] at h
  | cons a rest ih =>
    simp only [allPairs, List.mem_append, List.mem_map] at h
    rcases h with ⟨z, hz, hzeq⟩ | h
    · cases hzeq
      exact ⟨List.mem_cons_self _ _, List.mem_cons_of_mem _ hz⟩
    · have hm := ih h
      exact ⟨List.mem_cons_of_mem _ hm.1, List.mem_cons_of_mem _ hm.2⟩

theorem sortKey_eq_cases {a b c d : String} (h : sortKey a b = sortKey c d) :
    (a = c ∧ b = d) ∨ (a = d ∧ b = c) := by
  unfold sortKey at h
  split_ifs at h <;> injection h with h1 h2 <;>
    first
    | exact Or.inl ⟨h2, h1⟩
    | exact Or.inr ⟨h2, h1⟩
    | exact Or.inr ⟨h1, h2⟩
    | exact Or.inl ⟨h1, h2⟩

theorem is_separated_comm (a b : Aircraft) : is_separated a b = is_separated b a := by
  unfold is_separated check_separation reqFor Position.dist2 Position.vertical_separation
  have h1 :
      (a.position.x - b.position.x) ^ 2 + (a.position.y - b.position.y) ^ 2 =
        (b.position.x - a.position.x) ^ 2 + (b.position.y - a.position.y) ^ 2 := by ring
  have h2 :
      |a.position.altitude - b.position.altitude| =
        |b.position.altitude - a.position.altitude| := abs_sub_comm _ _
  have h3 :
      (a.position.altitude + b.position.altitude) / 2 =
        (b.position.altitude + a.position.altitude) / 2 := by ring
  rw [h1, h2, h3]

theorem near_miss_check_some_sep {ac1 ac2 : Aircraft} {t : ℚ} {nm : NearMiss}
    (h : near_miss_check ac1 ac2 t = some nm) :
    is_separated ac1 ac2 = true ∧ nm.aircraft1 = ac1.callsign ∧ nm.aircraft2 = ac2.callsign := by
  unfold near_miss_check at h
  dsimp only at h
  by_cases hsep : is_separated ac1 ac2 = true
  · rw [if_pos hsep] at h
    split at h
    all_goals split at h
    all_goals
      first
      | (injection h with h1
         subst h1
         exact ⟨hsep, rfl, rfl⟩)
      | cases h
  · rw [if_neg hsep] at h
    cases h

theorem isSome_ite {α : Type} (c : Prop) [Decidable c] (x : α) :
    (if c then some x else none).isSome = true ↔ c := by
  split <;> simp [*]

theorem hratio_lt_iff {h2 rh : ℚ} (hh2 : 0 ≤ h2) (hrh : 0 < rh) :
    h2 / rh ^ 2 < (3 / 2) ^ 2 ↔ Real.sqrt (h2 : ℝ) / (rh : ℝ) < 3 / 2 := by
  have hrhR : (0 : ℝ) < (rh : ℝ) := by exact_mod_cast hrh
  rw [div_lt_iff hrhR, div_lt_iff (by positivity : (0 : ℚ) < rh ^ 2)]
  rw [show (3 / 2 : ℝ) * (rh : ℝ) = ((3 / 2 * rh : ℚ) : ℝ) by push_cast; ring]
  rw [sqrt_lt_iff_lt_sq (by positivity : (0 : ℚ) < 3 / 2 * rh)]
  constructor <;> intro h <;> nlinarith

theorem vratio_lt_iff {v rv : ℚ} (hv : 0 ≤ v) (hrv : 0 < rv) :
    (v / rv) ^ 2 < (3 / 2) ^ 2 ↔ ((v : ℝ) / (rv : ℝ) < 3 / 2) := by
  have hdiv : ((v / rv : ℚ) : ℝ) = (v : ℝ) / (rv : ℝ) := by push_cast; ring
  have hcast : ((3 : ℝ) / 2) = ((3 / 2 : ℚ) : ℝ) := by norm_num
  rw [pow_lt_pow_iff_left₀ (by positivity) (by norm_num) (by norm_num : 2 ≠ 0), ← hdiv, hcast]
  exact Iff.symm Rat.cast_lt

/-- C6: on every tick, a NearMiss is recorded for a pair exactly when the
pair is separated and the minimum of (horizontal separation / required
horizontal) and (vertical separation / required vertical) — where zero
vertical separation reduces the minimum to the horizontal ratio alone,
i.e. the vertical ratio is treated as +infinity — is below 1.5; hence the
pairs recorded as near misses and the pairs found violating on the same
tick are disjoint (given unique callsigns). -/
theorem c6_near_miss_iff_and_disjoint_from_violations :
    (∀ (ac1 ac2 : Aircraft) (t : ℚ),
        (near_miss_check ac1 ac2 t).isSome = true ↔
          (is_separated ac1 ac2 = true ∧
            (if 0 < (check_separation ac1 ac2).2 then
                min
                  (Real.sqrt ((check_separation ac1 ac2).1 : ℝ) /
                    ((reqFor ac1 ac2).horizontal_nm : ℝ))
                  (((check_separation ac1 ac2).2 : ℝ) / ((reqFor ac1 ac2).vertical_ft : ℝ))
              else
                Real.sqrt ((check_separation ac1 ac2).1 : ℝ) /
                  ((reqFor ac1 ac2).horizontal_nm : ℝ)) <
              3 / 2)) ∧
      ∀ (l : List Aircraft) (t : ℚ), (l.map Aircraft.callsign).Nodup →
        ∀ nm ∈ check_near_misses l t,
          sortKey nm.aircraft1 nm.aircraft2 ∉ currentViolationKeys l := by
  constructor
  case left =>
    intro ac1 ac2 t
    unfold near_miss_check
    dsimp only
    split
    case isTrue hsep =>
      rw [isSome_ite]
      simp only [hsep, true_and]
      have hh2 := dist2_nonneg ac1.position ac2.position
      have hrh := reqFor_horizontal_pos ac1 ac2
      have hrv := reqFor_vertical_pos ac1 ac2
      have hv : 0 ≤ (check_separation ac1 ac2).2 := abs_nonneg _
      unfold NEAR_MISS_THRESHOLD
      by_cases hvz : (0 : ℚ) < (check_separation ac1 ac2).2
      case pos =>
        rw [if_pos hvz, if_pos hvz, min_lt_iff, min_lt_iff]
        exact or_congr (hratio_lt_iff hh2 hrh) (vratio_lt_iff hv hrv)
      case neg =>
        rw [if_neg hvz, if_neg hvz]
        exact hratio_lt_iff hh2 hrh
    case isFalse hsep =>
      simp [hsep]
  case right =>
    intro l t hnd nm hmem hkey
    unfold check_near_misses at hmem
    rw [List.mem_filterMap] at hmem
    obtain ⟨⟨a, b⟩, hpair, hcheck⟩ := hmem
    obtain ⟨hsep, h1, h2⟩ := near_miss_check_some_sep hcheck
    unfold currentViolationKeys at hkey
    rw [List.mem_filterMap] at hkey
    obtain ⟨⟨c, d⟩, hpair', hcd⟩ := hkey
    split_ifs at hcd with hsep'
    injection hcd with hkeyeq
    rw [h1, h2] at hkeyeq
    have hinj := List.inj_on_of_nodup_map hnd
    have hac := allPairs_mem hpair
    have hcd' := allPairs_mem hpair'
    rcases sortKey_eq_cases hkeyeq with ⟨e1, e2⟩ | ⟨e1, e2⟩
    · have hca : c = a := hinj hcd'.1 hac.1 e1
      have hdb : d = b := hinj hcd'.2 hac.2 e2
      rw [hca, hdb] at hsep'
      exact hsep' hsep
    · have hcb : c = b := hinj hcd'.1 hac.2 e1
      have hda : d = a := hinj hcd'.2 hac.1 e2
      rw [hcb, hda, is_separated_comm] at hsep'
      exact hsep' hsep

/-- Separated near-miss pair (6 NM apart, ratio 1.2) for the C6 witness. -/
def acNMa : Aircraft := plainAC 0 0 10000 300 0 "NMA"

/-- Separated near-miss pair for the C6 witness. -/
def acNMb : Aircraft := plainAC 6 0 10000 300 0 "NMB"

/-- Witness for C6's disjointness conjunct at a concrete tick: a pair
6 NM apart at the same altitude is separated, is recorded as a near miss
(ratio 1.2), and is absent from the tick's violating pairs. -/
theorem c6_near_miss_disjoint_witness :
    ((List.map Aircraft.callsign [acNMa, acNMb]).Nodup ∧
        (check_near_misses [acNMa, acNMb] 0).length = 1) ∧
      ∀ nm ∈ check_near_misses [acNMa, acNMb] 0,
        sortKey nm.aircraft1 nm.aircraft2 ∉ currentViolationKeys [acNMa, acNMb] := by
  refine ⟨⟨by decide, by decide⟩, ?_⟩
  exact c6_near_miss_iff_and_disjoint_from_violations.2 [acNMa, acNMb] 0 (by decide)

/-- The lower aircraft of a pair by current altitude, as the resolver
selects it (the second aircraft on ties). -/
def lowerOf (ac1 ac2 : Aircraft) : Aircraft :=
  if ac1.position.altitude < ac2.position.altitude then ac1 else ac2

/-- The higher aircraft of a pair by current altitude, as the resolver
selects it. -/
def higherOf (ac1 ac2 : Aircraft) : Aircraft :=
  if ac1.position.altitude < ac2.position.altitude then ac2 else ac1

/-- The priority the resolver attaches: HIGH for a high-severity
conflict, MEDIUM otherwise. -/
def conflictPriority (c : Conflict) : Priority :=
  if c.severity = "high" then Priority.HIGH else Priority.MEDIUM

/-- C7: altitude resolution first tries to move the LOWER aircraft to
`lower.altitude − required_vertical − 1000` (a down-shift) whenever that
stays at or above the 1000 ft floor, issuing an ALTITUDE_CHANGE with
priority HIGH for a high-severity conflict and MEDIUM otherwise, and
stopping there; otherwise it moves the higher aircraft to
`higher.altitude + required_vertical + 1000` when that stays at or below
45000 ft; when neither is feasible, no altitude instruction is issued
(the caller falls through to the next strategy). -/
theorem c7_altitude_resolution_policy (ac1 ac2 : Aircraft) (c : Conflict) (now : ℚ) :
    ((lowerOf ac1 ac2).position.altitude - (reqFor ac1 ac2).vertical_ft - 1000 ≥
        Aircraft.MIN_ALTITUDE →
      try_altitude_resolution ac1 ac2 c now =
        some
          { callsign := (lowerOf ac1 ac2).callsign, timestamp := now,
            instruction_type := InstructionType.ALTITUDE_CHANGE,
            param := (lowerOf ac1 ac2).position.altitude - (reqFor ac1 ac2).vertical_ft - 1000,
            reason := "traffic_conflict", priority := conflictPriority c }) ∧
    (¬ ((lowerOf ac1 ac2).position.altitude - (reqFor ac1 ac2).vertical_ft - 1000 ≥
          Aircraft.MIN_ALTITUDE) →
      (higherOf ac1 ac2).position.altitude + (reqFor ac1 ac2).vertical_ft + 1000 ≤
          Aircraft.MAX_ALTITUDE →
      try_altitude_resolution ac1 ac2 c now =
        some
          { callsign := (higherOf ac1 ac2).callsign, timestamp := now,
            instruction_type := InstructionType.ALTITUDE_CHANGE,
            param := (higherOf ac1 ac2).position.altitude + (reqFor ac1 ac2).vertical_ft + 1000,
            reason := "traffic_conflict", priority := conflictPriority c }) ∧
    (¬ ((lowerOf ac1 ac2).position.altitude - (reqFor ac1 ac2).vertical_ft - 1000 ≥
          Aircraft.MIN_ALTITUDE) →
      ¬ ((higherOf ac1 ac2).position.altitude + (reqFor ac1 ac2).vertical_ft + 1000 ≤
          Aircraft.MAX_ALTITUDE) →
      try_altitude_resolution ac1 ac2 c now = none) := by
  unfold try_altitude_resolution lowerOf higherOf conflictPriority
  dsimp only
  refine ⟨?_, ?_, ?_⟩
  · intro h1
    rw [if_pos h1]
  · intro h1 h2
    rw [if_neg h1, if_pos h2]
  · intro h1 h2
    rw [if_neg h1, if_neg h2]

/-- Aircraft pair for the C7 witness: altitudes 10000 and 12000 ft. -/
def acAltA : Aircraft := plainAC 0 0 10000 300 0 "ALA"

/-- Aircraft pair for the C7 witness. -/
def acAltB : Aircraft := plainAC 2 0 12000 300 0 "ALB"

/-- A high-severity conflict record for the C7 and C8/C9 witnesses. -/
def cW : Conflict :=
  { aircraft1 := "ALA", aircraft2 := "ALB", time_to_cpa := 0, hSep2_at_cpa := 0,
    vertical_separation_at_cpa := 0, severity := "high" }

/-- Witness for C7 at a concrete feasible down-shift: the lower aircraft
(10000 ft) is sent to 8000 ft with priority HIGH. -/
theorem c7_altitude_resolution_policy_witness :
    (lowerOf acAltA acAltB).position.altitude - (reqFor acAltA acAltB).vertical_ft - 1000 ≥
        Aircraft.MIN_ALTITUDE ∧
      try_altitude_resolution acAltA acAltB cW 5 =
        some
          { callsign := (lowerOf acAltA acAltB).callsign, timestamp := 5,
            instruction_type := InstructionType.ALTITUDE_CHANGE, param := 8000,
            reason := "traffic_conflict", priority := Priority.HIGH } := by
  refine ⟨by decide, ?_⟩
  rw [(c7_altitude_resolution_policy acAltA acAltB cW 5).1 (by decide)]
  decide

theorem recentScan_iff (now : ℚ) (c1 c2 : String) (l : List ATCInstruction) :
    recentScan now c1 c2 l = true ↔
      ∃ i ∈ l.takeWhile fun i => decide (now - i.timestamp ≤ 60),
        i.callsign = c1 ∨ i.callsign = c2 := by
  induction l with
  | nil => simp [recentScan]
  | cons i rest ih =>
    unfold recentScan
    by_cases hw : now - i.timestamp > 60
    · rw [if_pos hw]
      have hnle : ¬ (now - i.timestamp ≤ 60) := not_le.mpr hw
      have htw0 :
          (List.takeWhile (fun i => decide (now - i.timestamp ≤ 60)) (i :: rest)) =
            ([] : List ATCInstruction) := by
        rw [List.takeWhile_cons, decide_eq_false hnle]
        simp
      rw [htw0]
      simp
    · rw [if_neg hw]
      have hle : now - i.timestamp ≤ 60 := not_lt.mp hw
      have htw :
          (List.takeWhile (fun i => decide (now - i.timestamp ≤ 60)) (i :: rest)) =
            i :: List.takeWhile (fun i => decide (now - i.timestamp ≤ 60)) rest := by
        rw [List.takeWhile_cons, if_pos (decide_eq_true hle)]
      rw [htw]
      by_cases hm : i.callsign = c1 ∨ i.callsign = c2
      · rw [if_pos hm]
        constructor
        · intro _
          exact ⟨i, List.mem_cons_self _ _, hm⟩
        · intro _
          rfl
      · rw [if_neg hm, ih]
        constructor
        · rintro ⟨x, hx, hcs⟩
          exact ⟨x, List.mem_cons_of_mem _ hx, hcs⟩
        · rintro ⟨x, hx, hcs⟩
          rcases List.mem_cons.mp hx with rfl | hx2
          · exact absurd hcs hm
          · exact ⟨x, hx2, hcs⟩

/-- C8: for a conflict being resolved, no instruction is issued (state
and aircraft list are returned unchanged) when either of its two
callsigns appears among the last 20 logged instructions within 60 seconds
of the current time; and the cooldown test itself scans the last 20
instructions newest-first, stopping at the first one older than the
60-second window and succeeding on a callsign match within it. -/
theorem c8_cooldown_blocks_resolution :
    (∀ (c : Conflict) (l : List Aircraft) (now : ℚ) (st : ATCState),
        recently_instructed st.instructions c.aircraft1 c.aircraft2 now = true →
          resolve_conflict c l now st = (st, l)) ∧
      ∀ (insts : List ATCInstruction) (c1 c2 : String) (now : ℚ),
        recently_instructed insts c1 c2 now = true ↔
          ∃ i ∈ (insts.reverse.take 20).takeWhile fun i => decide (now - i.timestamp ≤ 60),
            i.callsign = c1 ∨ i.callsign = c2 := by
  constructor
  case left =>
    intro c l now st hrec
    unfold resolve_conflict
    cases h1 : l.find? fun ac => ac.callsign == c.aircraft1 with
    | none => rfl
    | some ac1 =>
      cases h2 : l.find? fun ac => ac.callsign == c.aircraft2 with
      | none => rfl
      | some ac2 => simp [hrec]
  case right =>
    intro insts c1 c2 now
    unfold recently_instructed
    rw [recentScan_iff, List.take_reverse]

/-- A recent heading instruction to one of the conflict's aircraft, for
the C8 witness. -/
def instW : ATCInstruction :=
  { callsign := "ALA", timestamp := 0, instruction_type := InstructionType.HEADING_CHANGE,
    param := 90, reason := "traffic_conflict", priority := Priority.MEDIUM }

/-- ATC state holding one recent instruction, for the C8 witness. -/
def stW : ATCState := { instructions := [instW], instruction_count := 1 }

/-- Witness for C8: with an instruction to one of the pair issued 10
seconds earlier, resolution of the conflict is skipped entirely. -/
theorem c8_cooldown_blocks_resolution_witness :
    recently_instructed stW.instructions cW.aircraft1 cW.aircraft2 10 = true ∧
      resolve_conflict cW [acAltA, acAltB] 10 stW = (stW, [acAltA, acAltB]) := by
  refine ⟨by decide, ?_⟩
  exact c8_cooldown_blocks_resolution.1 cW [acAltA, acAltB] 10 stW (by decide)

/-- The heading instruction the resolver issues to the first-named
aircraft: 30 degrees clockwise from its current heading, modulo 360. -/
def headingInstruction (ac1 : Aircraft) (c : Conflict) (now : ℚ) : ATCInstruction :=
  { callsign := ac1.callsign, timestamp := now,
    instruction_type := InstructionType.HEADING_CHANGE,
    param := pymod (ac1.velocity.heading + 30) 360,
    reason := "traffic_conflict", priority := conflictPriority c }

theorem try_heading_resolution_eq (ac1 ac2 : Aircraft) (c : Conflict) (now : ℚ) :
    try_heading_resolution ac1 ac2 c now = some (headingInstruction ac1 c now) := rfl

theorem try_altitude_resolution_type {ac1 ac2 : Aircraft} {c : Conflict} {now : ℚ}
    {i : ATCInstruction} (h : try_altitude_resolution ac1 ac2 c now = some i) :
    i.instruction_type = InstructionType.ALTITUDE_CHANGE := by
  unfold try_altitude_resolution at h
  dsimp only at h
  split_ifs at h <;> injection h with h1 <;> subst h1 <;> rfl

/-- C9: heading resolution always succeeds, issuing a HEADING_CHANGE to
the conflict's first-named aircraft vectoring it 30 degrees clockwise
(modulo 360); whenever the looked-up pair is not in cooldown and altitude
resolution fails, the resolver issues exactly that instruction; hence the
speed branch is never reached and conflict resolution never issues a
SPEED_CHANGE instruction. -/
theorem c9_heading_always_succeeds_no_speed_change :
    (∀ (ac1 ac2 : Aircraft) (c : Conflict) (now : ℚ),
        try_heading_resolution ac1 ac2 c now = some (headingInstruction ac1 c now)) ∧
      (∀ (c : Conflict) (l : List Aircraft) (now : ℚ) (st : ATCState) (ac1 ac2 : Aircraft),
        (l.find? fun ac => ac.callsign == c.aircraft1) = some ac1 →
        (l.find? fun ac => ac.callsign == c.aircraft2) = some ac2 →
        recently_instructed st.instructions c.aircraft1 c.aircraft2 now = false →
        try_altitude_resolution ac1 ac2 c now = none →
          resolve_conflict c l now st =
            issue_instruction st l (headingInstruction ac1 c now)) ∧
      ∀ (c : Conflict) (l : List Aircraft) (now : ℚ) (st : ATCState) (inst : ATCInstruction),
        inst ∈ (resolve_conflict c l now st).1.instructions →
          inst ∈ st.instructions ∨
            inst.instruction_type ≠ InstructionType.SPEED_CHANGE := by
  refine ⟨fun ac1 ac2 c now => rfl, ?_, ?_⟩
  case refine_1 =>
    intro c l now st ac1 ac2 h1 h2 hrec halt
    unfold resolve_conflict
    rw [h1, h2]
    simp only [hrec, Bool.false_eq_true, if_false]
    rw [halt]
    rfl
  case refine_2 =>
    intro c l now st inst hmem
    unfold resolve_conflict at hmem
    split at hmem
    case h_2 => exact Or.inl hmem
    case h_1 ac1 ac2 =>
      split at hmem
      case isTrue => exact Or.inl hmem
      case isFalse =>
        split at hmem
        case h_1 i hi =>
          unfold issue_instruction at hmem
          dsimp only at hmem
          rcases List.mem_append.mp hmem with hmem2 | hmem2
          · exact Or.inl hmem2
          · right
            rcases List.mem_singleton.mp hmem2 with rfl
            rw [try_altitude_resolution_type hi]
            intro hcontra
            cases hcontra
        case h_2 =>
          split at hmem
          case h_1 i hi =>
            rw [try_heading_resolution_eq] at hi
            injection hi with hi1
            unfold issue_instruction at hmem
            dsimp only at hmem
            rcases List.mem_append.mp hmem with hmem2 | hmem2
            · exact Or.inl hmem2
            · right
              rcases List.mem_singleton.mp hmem2 with rfl
              rw [← hi1]
              intro hcontra
              cases hcontra
          case h_2 hi =>
            rw [try_heading_resolution_eq] at hi
            cases hi

/-- High-altitude pair making both altitude strategies infeasible, for
the C9 witness: 2500 ft (down-shift would hit the floor) and 44500 ft
(climb would exceed the ceiling). -/
def acHdgA : Aircraft := plainAC 0 0 2500 300 40 "HGA"

/-- High-altitude pair making both altitude strategies infeasible. -/
def acHdgB : Aircraft := plainAC 2 0 44500 300 0 "HGB"

/-- A high-severity conflict naming the C9 witness pair. -/
def cHdg : Conflict :=
  { aircraft1 := "HGA", aircraft2 := "HGB", time_to_cpa := 0, hSep2_at_cpa := 0,
    vertical_separation_at_cpa := 0, severity := "high" }

/-- Witness for C9: with both altitude strategies infeasible and no
cooldown, the resolver issues the 30-degrees-right heading instruction to
the first-named aircraft (heading 40 becomes 70). -/
theorem c9_heading_always_succeeds_no_speed_change_witness :
    (([acHdgA, acHdgB].find? fun ac => ac.callsign == cHdg.aircraft1) = some acHdgA ∧
        ([acHdgA, acHdgB].find? fun ac => ac.callsign == cHdg.aircraft2) = some acHdgB ∧
        recently_instructed atcInit.instructions cHdg.aircraft1 cHdg.aircraft2 0 = false ∧
        try_altitude_resolution acHdgA acHdgB cHdg 0 = none) ∧
      resolve_conflict cHdg [acHdgA, acHdgB] 0 atcInit =
        issue_instruction atcInit [acHdgA, acHdgB] (headingInstruction acHdgA cHdg 0) ∧
      (headingInstruction acHdgA cHdg 0).param = 70 := by
  refine ⟨⟨by decide, by decide, by decide, by decide⟩, ?_, by decide⟩
  exact c9_heading_always_succeeds_no_speed_change.2.1 cHdg [acHdgA, acHdgB] 0 atcInit
    acHdgA acHdgB (by decide) (by decide) (by decide) (by decide)

theorem update_altitude_adopt {dt : ℚ} {s : Aircraft} (hta : s.target_altitude = none)
    (hw : s.current_waypoint_index < s.flightPlan.length) {a : ℚ}
    (hwp : (s.flightPlan[s.current_waypoint_index]).altitude = some a) :
    Aircraft.update_altitude dt s = { s with target_altitude := some a } := by
  unfold Aircraft.update_altitude
  rw [hta]
  dsimp only
  rw [dif_pos hw, hwp]

theorem update_heading_adopt {trig : Trig} {dt : ℚ} {s : Aircraft}
    (hth : s.target_heading = none)
    (hw : s.current_waypoint_index < s.flightPlan.length) :
    Aircraft.update_heading trig dt s =
      { s with
          target_heading :=
            some (Aircraft.calculate_heading_to_waypoint trig s
              (s.flightPlan[s.current_waypoint_index])) } := by
  unfold Aircraft.update_heading
  rw [hth]
  dsimp only
  rw [dif_pos hw]

/-- The altitude phase only writes the altitude and the pending altitude
target. -/
theorem update_altitude_shape (dt : ℚ) (x : Aircraft) :
    ∃ (av : ℚ) (tav : Option ℚ),
      Aircraft.update_altitude dt x =
        { x with position := { x.position with altitude := av }, target_altitude := tav } := by
  unfold Aircraft.update_altitude
  split
  case h_1 =>
    split
    case isTrue hw =>
      split
      case h_1 a hwp => exact ⟨x.position.altitude, some a, rfl⟩
      case h_2 => exact ⟨x.position.altitude, x.target_altitude, rfl⟩
    case isFalse => exact ⟨x.position.altitude, x.target_altitude, rfl⟩
  case h_2 tgt heq =>
    dsimp only
    split
    case isTrue => exact ⟨tgt, none, rfl⟩
    case isFalse =>
      split
      all_goals split
      all_goals
        first
        | exact ⟨_, none, rfl⟩
        | exact ⟨_, x.target_altitude, rfl⟩

theorem update_heading_keeps_alt (trig : Trig) (dt : ℚ) (x : Aircraft) :
    (Aircraft.update_heading trig dt x).position = x.position ∧
      (Aircraft.update_heading trig dt x).target_altitude = x.target_altitude := by
  unfold Aircraft.update_heading
  split
  case h_1 =>
    split
    case isTrue => exact ⟨rfl, rfl⟩
    case isFalse => exact ⟨rfl, rfl⟩
  case h_2 =>
    dsimp only
    split
    case isTrue => exact ⟨rfl, rfl⟩
    case isFalse =>
      split
      case isTrue => exact ⟨rfl, rfl⟩
      case isFalse => exact ⟨rfl, rfl⟩

theorem update_speed_keeps (dt : ℚ) (x : Aircraft) :
    (Aircraft.update_speed dt x).position = x.position ∧
      (Aircraft.update_speed dt x).velocity.heading = x.velocity.heading ∧
      (Aircraft.update_speed dt x).target_altitude = x.target_altitude ∧
      (Aircraft.update_speed dt x).target_heading = x.target_heading := by
  unfold Aircraft.update_speed
  split
  case h_1 => exact ⟨rfl, rfl, rfl, rfl⟩
  case h_2 =>
    dsimp only
    split
    case isTrue => exact ⟨rfl, rfl, rfl, rfl⟩
    case isFalse =>
      split
      case isTrue => exact ⟨rfl, rfl, rfl, rfl⟩
      case isFalse => exact ⟨rfl, rfl, rfl, rfl⟩

theorem update_position_keeps (trig : Trig) (dt : ℚ) (x : Aircraft) :
    (Aircraft.update_position trig dt x).position.altitude = x.position.altitude ∧
      (Aircraft.update_position trig dt x).velocity = x.velocity ∧
      (Aircraft.update_position trig dt x).target_altitude = x.target_altitude ∧
      (Aircraft.update_position trig dt x).target_heading = x.target_heading :=
  ⟨rfl, rfl, rfl, rfl⟩

theorem check_waypoint_keeps (x : Aircraft) :
    (Aircraft.check_waypoint_progress x).position = x.position ∧
      (Aircraft.check_waypoint_progress x).velocity = x.velocity ∧
      (Aircraft.check_waypoint_progress x).target_altitude = x.target_altitude ∧
      (Aircraft.check_waypoint_progress x).target_heading = x.target_heading := by
  unfold Aircraft.check_waypoint_progress
  split
  case isTrue =>
    dsimp only
    split
    case isTrue => exact ⟨rfl, rfl, rfl, rfl⟩
    case isFalse => exact ⟨rfl, rfl, rfl, rfl⟩
  case isFalse => exact ⟨rfl, rfl, rfl, rfl⟩

/-- C10: when an aircraft enters `Aircraft.update` with no pending
altitude (resp. heading) target and a current flight-plan waypoint
exists, the tick adopts the waypoint's altitude (resp. the bearing to the
waypoint) as the new pending target while leaving the aircraft's altitude
(resp. heading) unchanged on that tick — motion toward the newly acquired
target can begin only on a later tick. -/
theorem c10_target_acquisition_frame (trig : Trig) (dt : ℚ) (s : Aircraft) :
    ((s.target_altitude = none) →
      ∀ (hw : s.current_waypoint_index < s.flightPlan.length) (a : ℚ),
        (s.flightPlan[s.current_waypoint_index]).altitude = some a →
          (Aircraft.update trig dt s).position.altitude = s.position.altitude ∧
            (Aircraft.update trig dt s).target_altitude = some a) ∧
      ((s.target_heading = none) →
        ∀ hw : s.current_waypoint_index < s.flightPlan.length,
          (Aircraft.update trig dt s).velocity.heading = s.velocity.heading ∧
            (Aircraft.update trig dt s).target_heading =
              some (Aircraft.calculate_heading_to_waypoint trig s
                (s.flightPlan[s.current_waypoint_index]))) := by
  constructor
  case left =>
    intro hta hw a hwp
    unfold Aircraft.update
    rw [update_altitude_adopt (s := { s with time_in_simulation := s.time_in_simulation + dt })
      hta hw hwp]
    constructor
    case left =>
      rw [(check_waypoint_keeps _).1, (update_position_keeps trig dt _).1,
        congrArg Position.altitude (update_speed_keeps dt _).1,
        congrArg Position.altitude (update_heading_keeps_alt trig dt _).1]
    case right =>
      rw [(check_waypoint_keeps _).2.2.1, (update_position_keeps trig dt _).2.2.1,
        (update_speed_keeps dt _).2.2.1, (update_heading_keeps_alt trig dt _).2]
  case right =>
    intro hth hw
    unfold Aircraft.update
    obtain ⟨av, tav, hshape⟩ :=
      update_altitude_shape dt { s with time_in_simulation := s.time_in_simulation + dt }
    rw [hshape]
    rw [update_heading_adopt
      (s := { s with
                position := { s.position with altitude := av }, target_altitude := tav,
                time_in_simulation := s.time_in_simulation + dt })
      hth hw]
    constructor
    case left =>
      rw [congrArg Velocity.heading (check_waypoint_keeps _).2.1,
        congrArg Velocity.heading (update_position_keeps trig dt _).2.1,
        (update_speed_keeps dt _).2.1]
    case right =>
      rw [(check_waypoint_keeps _).2.2.2, (update_position_keeps trig dt _).2.2.2,
        (update_speed_keeps dt _).2.2.2]
      rfl

/-- Witness for C10 at a concrete aircraft with no pending targets and a
flight-plan waypoint carrying an altitude: the tick adopts the waypoint
altitude 20000 and the bearing 0 as targets while leaving altitude and
heading unchanged. -/
theorem c10_target_acquisition_frame_witness :
    (acW.target_altitude = none ∧ acW.target_heading = none ∧
        acW.current_waypoint_index < acW.flightPlan.length) ∧
      (Aircraft.update trigZero 1 acW).position.altitude = acW.position.altitude ∧
      (Aircraft.update trigZero 1 acW).target_altitude = some 20000 ∧
      (Aircraft.update trigZero 1 acW).velocity.heading = acW.velocity.heading ∧
      (Aircraft.update trigZero 1 acW).target_heading = some 0 := by
  have hw : acW.current_waypoint_index < acW.flightPlan.length := by decide
  have h1 := (c10_target_acquisition_frame trigZero 1 acW).1 (by rfl) hw 20000 (by rfl)
  have h2 := (c10_target_acquisition_frame trigZero 1 acW).2 (by rfl) hw
  refine ⟨⟨by rfl, by rfl, hw⟩, h1.1, h1.2, h2.1, ?_⟩
  rw [h2.2]
  norm_num [Aircraft.calculate_heading_to_waypoint, pymod, trigZero]

end ATCSim
